import Mathlib

/-
Verification of the shared-memory ring-buffer transport of the
mivi-imaging-service repository (namespace medical::imaging).

The embedding follows the current implementation of class SharedMemory:
the translation unit defining SharedMemory::Impl with the fields
frameSlotSize / metadataAreaSize and the methods initializePosixShm,
calculateFrameOffset, updateMetadataJson, writeFrame, writeFrameTimeout,
readLatestFrame, readNextFrame, getFormatCode and getFormatString,
together with its class declaration in communication/shared_memory.h
(Status, FrameHeader, Config, ControlBlock).

Embedding conventions:
* uint64_t / uint32_t values are naturals; stores into 64/32-bit fields
  reduce modulo 2^64 / 2^32; uint64_t subtraction is `sub64`.
* The cross-process shared state (control block, metadata region, frame
  slots) and the engine-local counted statistics (stats_) form one record
  `SMState`.  The data region is modelled slot-wise: slot i is the pair of
  the FrameHeader written at byte offset `calculateFrameOffset i` and the
  pixel bytes behind it; the byte-offset arithmetic of the source
  (calculateFrameOffset, and the null checks of getFrameHeader /
  getFrameData) is kept exactly.
* Wall-clock reads are passed in as a `now` argument; the latency /
  average statistics fields of stats_ (writeLatencyNsAvg, ...) are
  real-time measurements with no effect on any other behaviour and are
  not part of the record.
* Semantics are sequential (single process, one thread): while the
  producer sleeps inside a full-buffer wait loop no reader runs, so a
  re-loaded readIndex is unchanged and every such wait ends at its
  deadline; symmetrically for the empty-buffer wait of readNextFrame.
* The JSON read-modify-write of the metadata region performed by the
  write path when config_.enableMetadata is set (readMetadataJson,
  merge of the last_frame subtree, dump) is abstracted by a caller
  supplied serialization function `dump`; the resulting byte string is
  then written through updateMetadataJson exactly as in the source.
* Frame::createMapped is modelled as always succeeding, and the
  OS-level failure modes of shm_open/ftruncate/mmap (CREATION_FAILED,
  NOT_INITIALIZED) are outside the embedding: posixShmCreate models the
  pure geometry and control-block initialization of the create path.
-/

namespace MiviImaging

/-- Status codes of SharedMemory operations (communication/shared_memory.h). -/
inductive Status where
  | OK
  | ALREADY_EXISTS
  | CREATION_FAILED
  | NOT_INITIALIZED
  | WRITE_FAILED
  | READ_FAILED
  | BUFFER_FULL
  | BUFFER_EMPTY
  | INVALID_SIZE
  | PERMISSION_DENIED
  | TIMEOUT
  | INTERNAL_ERROR
  | NOT_SUPPORTED
  deriving DecidableEq, Repr

/-- 2^64, the modulus of the uint64_t counters of the control block. -/
def U64 : Nat := 2 ^ 64

/-- 2^32, the modulus of the uint32_t fields of the frame header. -/
def U32 : Nat := 2 ^ 32

/-- sizeof(SharedMemory::FrameHeader): 2 x u64 + 6 x u32 + u64 + 2 x u32
+ 4 x u64 padding, alignas(8) = 8+8+24+8+8+32 = 88 bytes. -/
def frameHeaderSize : Nat := 88

/-- sizeof(SharedMemory::ControlBlock): 6 atomic u64 (48) + atomic bool,
then 2 atomic u64 at 8-byte alignment (56..72), 2 u32 (72..80), atomic
u32 (80..84), uint8_t padding[184] (84..268), alignas(64) rounds to 320. -/
def controlBlockSize : Nat := 320

/-- Size of the metadata area: `metadataAreaSize = 4096` in
Impl::initializePosixShm. -/
def metadataAreaSize : Nat := 4096

/-- uint64_t subtraction `a - b` for operands already reduced mod 2^64
(used for `frameCount = writeIndex - readIndex`). -/
def sub64 (a b : Nat) : Nat := if b ≤ a then a - b else a + U64 - b

/-- The fields of a `Frame` argument that the write path consumes through
its getters: getFrameId, getTimestamp (as ns), getWidth, getHeight,
getBytesPerPixel, getFormat, getData (== nullptr modelled by `dataNull`,
the bytes behind it by `data`), getDataSize, isMappedToSharedMemory. -/
structure FrameIn where
  frameId : Nat
  timestampNs : Nat
  width : Nat
  height : Nat
  bytesPerPixel : Nat
  format : String
  dataNull : Bool
  dataSize : Nat
  data : List Nat
  mappedToShm : Bool
  deriving DecidableEq, Repr

/-- SharedMemory::FrameHeader, the binary header at a slot's base
(padding words omitted; they are never read or written by name). -/
structure FrameHeader where
  frameId : Nat
  timestamp : Nat
  width : Nat
  height : Nat
  bytesPerPixel : Nat
  dataSize : Nat
  formatCode : Nat
  flags : Nat
  sequenceNumber : Nat
  metadataOffset : Nat
  metadataSize : Nat
  deriving DecidableEq, Repr

instance : Inhabited FrameHeader :=
  ⟨{ frameId := 0, timestamp := 0, width := 0, height := 0,
     bytesPerPixel := 0, dataSize := 0, formatCode := 0, flags := 0,
     sequenceNumber := 0, metadataOffset := 0, metadataSize := 0 }⟩

/-- One frame slot of the data region: the header written at the slot's
base plus the pixel bytes behind it.  A never-written slot holds the
default (the mapped memory's unspecified initial contents, fixed to zero
for determinism). -/
structure Slot where
  header : FrameHeader
  data : List Nat
  deriving DecidableEq, Repr

instance : Inhabited Slot := ⟨{ header := default, data := [] }⟩

/-- The frame handle a reader receives from Frame::createMapped plus
setFrameId / setTimestamp: a view of one slot's header fields and pixel
bytes. -/
structure FrameView where
  frameId : Nat
  timestampNs : Nat
  width : Nat
  height : Nat
  bytesPerPixel : Nat
  dataSize : Nat
  formatCode : Nat
  sequenceNumber : Nat
  format : String
  data : List Nat
  deriving DecidableEq, Repr

/-- The two SharedMemory::Config fields the embedded paths read
(config_.enableMetadata and config_.dropFramesWhenFull); the remaining
fields select backend, name and sizes and are consumed before the ring
protocol starts. -/
structure Config where
  enableMetadata : Bool
  dropFramesWhenFull : Bool
  deriving DecidableEq, Repr

/-- The shared-memory engine state: the Impl geometry fields, the
control block, the metadata region bytes, the frame slots, and the
count-valued fields of the engine-local stats_ structure. -/
structure SMState where
  isInit : Bool
  size : Nat
  dataOffset : Nat
  maxFrames : Nat
  frameSlotSize : Nat
  writeIndex : Nat
  readIndex : Nat
  frameCount : Nat
  totalFramesWritten : Nat
  totalFramesRead : Nat
  droppedFrames : Nat
  lastWriteTime : Nat
  lastReadTime : Nat
  cbMetadataOffset : Nat
  cbMetadataSize : Nat
  meta : List Nat
  slots : Nat → Slot
  statsBufferFullCount : Nat
  statsDroppedFrames : Nat
  statsTotalFramesWritten : Nat
  statsTotalFramesRead : Nat

instance : Inhabited SMState :=
  ⟨{ isInit := false, size := 0, dataOffset := 0, maxFrames := 0,
     frameSlotSize := 0, writeIndex := 0, readIndex := 0, frameCount := 0,
     totalFramesWritten := 0, totalFramesRead := 0, droppedFrames := 0,
     lastWriteTime := 0, lastReadTime := 0, cbMetadataOffset := 0,
     cbMetadataSize := 0, meta := [], slots := fun _ => default,
     statsBufferFullCount := 0, statsDroppedFrames := 0,
     statsTotalFramesWritten := 0, statsTotalFramesRead := 0 }⟩

/-- SharedMemory::Impl::calculateFrameOffset:
`return dataOffset + (index % maxFrames) * frameSlotSize;`. -/
def calculateFrameOffset (st : SMState) (index : Nat) : Nat :=
  st.dataOffset + (index % st.maxFrames) * st.frameSlotSize

/-- Impl::getFrameHeader returns a non-null pointer exactly when
`offset + sizeof(FrameHeader) <= size`. -/
def frameHeaderOk (st : SMState) (index : Nat) : Bool :=
  decide (calculateFrameOffset st index + frameHeaderSize ≤ st.size)

/-- Impl::getFrameData returns a non-null pointer exactly when
`calculateFrameOffset(index) + sizeof(FrameHeader) < size`. -/
def frameDataOk (st : SMState) (index : Nat) : Bool :=
  decide (calculateFrameOffset st index + frameHeaderSize < st.size)

/-- Contents of an n-byte destination after `strncpy(dest, src, n)`:
source bytes up to the first NUL, truncated to n, padded with NULs. -/
def strncpyRegion (n : Nat) (src : List Nat) : List Nat :=
  let s := (src.takeWhile (fun b => b ≠ 0)).take n
  s ++ List.replicate (n - s.length) 0

/-- Contents of the metadata region after
`strncpy(area, str, metadataSize - 1); area[metadataSize - 1] = 0;`
(the write pattern of initializePosixShm and updateMetadataJson). -/
def metaWrite (metadataSize : Nat) (src : List Nat) : List Nat :=
  strncpyRegion (metadataSize - 1) src ++ [0]

/-- SharedMemory::Impl::updateMetadataJson, taking the already-serialized
document `metadata.dump()` as the byte string `doc`: fail when the
control block is unavailable or the region is undescribed, fail when
`metadataStr.size() >= controlBlock->metadataSize`, otherwise rewrite
the region in place. -/
def updateMetadataJson (st : SMState) (doc : List Nat) : Bool × SMState :=
  if st.isInit = false ∨ st.cbMetadataOffset = 0 ∨ st.cbMetadataSize = 0 then
    (false, st)
  else if st.cbMetadataSize ≤ doc.length then
    (false, st)
  else
    (true, { st with meta := metaWrite st.cbMetadataSize doc })

/-- SharedMemory::getFormatCode (static helper). -/
def getFormatCode (format : String) : Nat :=
  if format = "YUV" ∨ format = "YUV422" then 0x01
  else if format = "BGRA" ∨ format = "RGB" ∨ format = "RGBA" then 0x02
  else if format = "YUV10" ∨ format = "YUV422_10" then 0x03
  else if format = "RGB10" then 0x04
  else 0xFF

/-- SharedMemory::getFormatString (static helper). -/
def getFormatString (formatCode : Nat) : String :=
  if formatCode = 0x01 then "YUV"
  else if formatCode = 0x02 then "BGRA"
  else if formatCode = 0x03 then "YUV10"
  else if formatCode = 0x04 then "RGB10"
  else "Unknown"

/-- Create path of SharedMemory::Impl::initializePosixShm, pure part:
geometry bootstrap, control-block zeroing, slot-size estimate
(1920*1080*2 + sizeof(FrameHeader)), maxFrames with the `< 1 -> 1`
floor, and the strncpy of the dumped initial metadata JSON (passed in
serialized as `metaInit`).  Rejects with none (Status INVALID_SIZE) when
`size <= dataOffset + sizeof(FrameHeader)`. -/
def posixShmCreate (shmSize : Nat) (metaInit : List Nat) : Option SMState :=
  let dataOffset := controlBlockSize + metadataAreaSize
  if shmSize ≤ dataOffset + frameHeaderSize then none
  else
    let frameSlotSize := 1920 * 1080 * 2 + frameHeaderSize
    let rawMax := (shmSize - dataOffset) / frameSlotSize
    some
      { isInit := true
        size := shmSize
        dataOffset := dataOffset
        maxFrames := if rawMax < 1 then 1 else rawMax
        frameSlotSize := frameSlotSize
        writeIndex := 0
        readIndex := 0
        frameCount := 0
        totalFramesWritten := 0
        totalFramesRead := 0
        droppedFrames := 0
        lastWriteTime := 0
        lastReadTime := 0
        cbMetadataOffset := controlBlockSize
        cbMetadataSize := metadataAreaSize
        meta := metaWrite metadataAreaSize metaInit
        slots := fun _ => default
        statsBufferFullCount := 0
        statsDroppedFrames := 0
        statsTotalFramesWritten := 0
        statsTotalFramesRead := 0 }

/-- Result of a write operation: status plus post state. -/
structure WriteResult where
  status : Status
  state : SMState

/-- Result of a read operation: status, the frame handle produced on
success, and the post state. -/
structure ReadResult where
  status : Status
  view : Option FrameView
  state : SMState

/-- The frame handle both readers construct from a slot:
Frame::createMapped(name, offset, dataSize, width, height,
bytesPerPixel, getFormatString(formatCode)) then setFrameId /
setTimestamp from the header. -/
def slotView (slot : Slot) : FrameView :=
  { frameId := slot.header.frameId
    timestampNs := slot.header.timestamp
    width := slot.header.width
    height := slot.header.height
    bytesPerPixel := slot.header.bytesPerPixel
    dataSize := slot.header.dataSize
    formatCode := slot.header.formatCode
    sequenceNumber := slot.header.sequenceNumber
    format := getFormatString slot.header.formatCode
    data := slot.data }

/-- SharedMemory::writeFrameTimeout under the sequential semantics of
the file header.  All three full-buffer branches (deadline expiry for
timeoutMs > 0; drop-when-full; the 1 ms re-check with an unchanged
readIndex) end in BUFFER_FULL with stats_.bufferFullCount++,
stats_.droppedFrames++ and controlBlock->droppedFrames += 1. -/
def writeFrameTimeout (dump : SMState → FrameIn → List Nat) (cfg : Config)
    (st : SMState) (frame : Option FrameIn) (timeoutMs : Nat) (now : Nat) :
    WriteResult :=
  if st.isInit = false then ⟨Status.NOT_INITIALIZED, st⟩
  else
    match frame with
    | none => ⟨Status.INVALID_SIZE, st⟩
    | some f =>
      if f.dataNull = true ∨ f.dataSize = 0 then ⟨Status.INVALID_SIZE, st⟩
      else
        let writeIndex := st.writeIndex
        let frameCount := sub64 writeIndex st.readIndex
        let bufferFull := st.maxFrames ≤ frameCount
        let fullState : SMState :=
          { st with
            droppedFrames := (st.droppedFrames + 1) % U64
            statsBufferFullCount := st.statsBufferFullCount + 1
            statsDroppedFrames := st.statsDroppedFrames + 1 }
        if bufferFull ∧ 0 < timeoutMs then
          ⟨Status.BUFFER_FULL, fullState⟩
        else if bufferFull then
          if cfg.dropFramesWhenFull = true then ⟨Status.BUFFER_FULL, fullState⟩
          else ⟨Status.BUFFER_FULL, fullState⟩
        else
          if frameHeaderOk st writeIndex = false then ⟨Status.INTERNAL_ERROR, st⟩
          else if frameDataOk st writeIndex = false then ⟨Status.INTERNAL_ERROR, st⟩
          else
            let hdr : FrameHeader :=
              { frameId := f.frameId % U64
                timestamp := f.timestampNs % U64
                width := f.width % U32
                height := f.height % U32
                bytesPerPixel := f.bytesPerPixel % U32
                dataSize := f.dataSize % U32
                formatCode := getFormatCode f.format
                flags := if f.mappedToShm = true then 1 else 0
                sequenceNumber := writeIndex % U64
                metadataOffset := 0
                metadataSize := 0 }
            let slotIdx := writeIndex % st.maxFrames
            let newSlot : Slot :=
              { header := hdr
                data := if f.mappedToShm = true then (st.slots slotIdx).data
                        else f.data }
            let st1 :=
              { st with slots := fun i => if i = slotIdx then newSlot else st.slots i }
            let st2 :=
              if cfg.enableMetadata = true then (updateMetadataJson st1 (dump st1 f)).2
              else st1
            ⟨Status.OK,
              { st2 with
                lastWriteTime := now % U64
                writeIndex := (writeIndex + 1) % U64
                frameCount := (frameCount + 1) % U64
                totalFramesWritten := (st.totalFramesWritten + 1) % U64
                statsTotalFramesWritten := st.statsTotalFramesWritten + 1 }⟩

/-- SharedMemory::writeFrame: `return writeFrameTimeout(frame, 0);`. -/
def writeFrame (dump : SMState → FrameIn → List Nat) (cfg : Config)
    (st : SMState) (frame : Option FrameIn) (now : Nat) : WriteResult :=
  writeFrameTimeout dump cfg st frame 0 now

/-- SharedMemory::readLatestFrame.  The enableMetadata branch only
copies annotations into the returned Frame object and is outside the
FrameView; the state effect is lastReadTime plus stats_.totalFramesRead. -/
def readLatestFrame (cfg : Config) (st : SMState) (now : Nat) : ReadResult :=
  if st.isInit = false then ⟨Status.NOT_INITIALIZED, none, st⟩
  else
    let writeIndex := st.writeIndex
    let readIndex := st.readIndex
    if writeIndex = 0 ∨ writeIndex ≤ readIndex then ⟨Status.BUFFER_EMPTY, none, st⟩
    else
      let latestIndex := writeIndex - 1
      if frameHeaderOk st latestIndex = false then ⟨Status.INTERNAL_ERROR, none, st⟩
      else if frameDataOk st latestIndex = false then ⟨Status.INTERNAL_ERROR, none, st⟩
      else
        ⟨Status.OK, some (slotView (st.slots (latestIndex % st.maxFrames))),
          { st with
            lastReadTime := now % U64
            statsTotalFramesRead := st.statsTotalFramesRead + 1 }⟩

/-- SharedMemory::readNextFrame under the sequential semantics: with the
buffer empty, waitMilliseconds = 0 returns BUFFER_EMPTY and
waitMilliseconds > 0 sleep-polls an unchanged writeIndex to the deadline
and returns TIMEOUT. -/
def readNextFrame (cfg : Config) (st : SMState) (waitMilliseconds : Nat)
    (now : Nat) : ReadResult :=
  if st.isInit = false then ⟨Status.NOT_INITIALIZED, none, st⟩
  else
    let readIndex := st.readIndex
    let writeIndex := st.writeIndex
    if writeIndex ≤ readIndex then
      if waitMilliseconds = 0 then ⟨Status.BUFFER_EMPTY, none, st⟩
      else ⟨Status.TIMEOUT, none, st⟩
    else
      if frameHeaderOk st readIndex = false then ⟨Status.INTERNAL_ERROR, none, st⟩
      else if frameDataOk st readIndex = false then ⟨Status.INTERNAL_ERROR, none, st⟩
      else
        ⟨Status.OK, some (slotView (st.slots (readIndex % st.maxFrames))),
          { st with
            readIndex := (readIndex + 1) % U64
            lastReadTime := now % U64
            frameCount := if 0 < st.frameCount then st.frameCount - 1 else st.frameCount
            totalFramesRead := (st.totalFramesRead + 1) % U64
            statsTotalFramesRead := st.statsTotalFramesRead + 1 }⟩

/-- A serialization stand-in for configurations with metadata disabled
(never consulted there). -/
def noDump : SMState → FrameIn → List Nat := fun _ _ => []

/-- Ring-mode configuration: metadata disabled, dropFramesWhenFull
false (the Config constructor defaults it to true; main.cpp sets it to
false for the capture service). -/
def ringCfg : Config := { enableMetadata := false, dropFramesWhenFull := false }

/-- A minimal valid frame argument: non-null 1-byte pixel buffer,
1080p YUV descriptors. -/
def testFrame : FrameIn :=
  { frameId := 42, timestampNs := 7, width := 1920, height := 1080,
    bytesPerPixel := 2, format := "YUV", dataNull := false,
    dataSize := 1, data := [171], mappedToShm := false }

/-- Segment size that makes the create-path geometry yield exactly two
slots: dataOffset + 2 * (1920*1080*2 + sizeof(FrameHeader)). -/
def twoSlotSize : Nat :=
  controlBlockSize + metadataAreaSize + 2 * (1920 * 1080 * 2 + frameHeaderSize)

/-- Freshly created two-slot POSIX segment. -/
def st0 : SMState := (posixShmCreate twoSlotSize []).getD default

/-- First write into the fresh two-slot segment. -/
def writeA : WriteResult := writeFrameTimeout noDump ringCfg st0 (some testFrame) 0 0

/-- Second write (fills the buffer). -/
def writeB : WriteResult :=
  writeFrameTimeout noDump ringCfg writeA.state (some testFrame) 0 0

/-- Third write against the full buffer, timeoutMs = 0, drop-when-full
not set. -/
def writeC : WriteResult :=
  writeFrameTimeout noDump ringCfg writeB.state (some testFrame) 0 0

/-- Sequential read of the only frame in the segment after `writeA`:
drains the buffer, leaving readIndex = writeIndex = 1. -/
def readNextA : ReadResult := readNextFrame ringCfg writeA.state 0 0

/-- Latest-frame read on the drained segment (one frame ever published,
all of it consumed sequentially). -/
def latestAfterDrain : ReadResult := readLatestFrame ringCfg readNextA.state 0

/-- Non-blocking sequential read on the drained segment. -/
def readNextEmpty : ReadResult := readNextFrame ringCfg readNextA.state 0 0

/-- A frame argument one byte too large for a slot:
dataSize = 1920*1080*2 + 1 = frameSlotSize - sizeof(FrameHeader) + 1. -/
def oversizeFrame : FrameIn := { testFrame with dataSize := 4147201 }

/-- Write of the oversize frame into the fresh two-slot segment. -/
def writeOversize : WriteResult :=
  writeFrameTimeout noDump ringCfg st0 (some oversizeFrame) 0 0

/-- A small initialized state for exercising updateMetadataJson:
metadata region of 4 bytes at the control-block boundary. -/
def metaState : SMState :=
  { (default : SMState) with
    isInit := true
    cbMetadataOffset := controlBlockSize
    cbMetadataSize := 4
    meta := [1, 2, 3, 4] }

/-! ## Theorems -/

/-- takeWhile with a nowhere-failing predicate is the identity
(the serialized JSON documents contain no NUL byte). -/
theorem takeWhile_ne_zero_of_forall (src : List Nat) (h : ∀ b ∈ src, b ≠ 0) :
    src.takeWhile (fun b => b ≠ 0) = src := by
  induction src with
  | nil => rfl
  | cons a l ih =>
    have ha : a ≠ 0 := h a (List.mem_cons_self a l)
    have hl : ∀ b ∈ l, b ≠ 0 := fun b hb => h b (List.mem_cons_of_mem a hb)
    simp [List.takeWhile_cons, ha, ih hl]
    exact hl

/-- The metadata-region write pattern, for a NUL-free document that fits:
the document followed by NUL padding out to the region size. -/
theorem metaWrite_of_fits (mS : Nat) (src : List Nat)
    (h0 : ∀ b ∈ src, b ≠ 0) (hlen : src.length < mS) :
    metaWrite mS src = src ++ List.replicate (mS - src.length) 0 := by
  unfold metaWrite strncpyRegion
  rw [takeWhile_ne_zero_of_forall src h0]
  have h1 : src.length ≤ mS - 1 := by omega
  rw [List.take_of_length_le h1]
  rw [List.append_assoc]
  congr 1
  have h2 : mS - 1 - src.length + 1 = mS - src.length := by omega
  calc List.replicate (mS - 1 - src.length) 0 ++ [0]
      = List.replicate (mS - 1 - src.length + 1) 0 := (List.replicate_succ' _ _).symm
    _ = List.replicate (mS - src.length) 0 := by rw [h2]

/-- C9: format-code conversion round-trips on the canonical names
"YUV", "BGRA", "YUV10", "RGB10"; the canonical names map to 0x01..0x04;
every string the converter does not recognize (the canonical names plus
the aliases "YUV422", "RGB", "RGBA", "YUV422_10") maps to 0xFF; and
every code outside 0x01..0x04 maps to "Unknown". -/
theorem format_code_string_round_trip :
    (∀ s : String, s = "YUV" ∨ s = "BGRA" ∨ s = "YUV10" ∨ s = "RGB10" →
        getFormatString (getFormatCode s) = s) ∧
    (getFormatCode "YUV" = 0x01 ∧ getFormatCode "BGRA" = 0x02 ∧
      getFormatCode "YUV10" = 0x03 ∧ getFormatCode "RGB10" = 0x04) ∧
    (∀ s : String, s ≠ "YUV" → s ≠ "YUV422" → s ≠ "BGRA" → s ≠ "RGB" →
        s ≠ "RGBA" → s ≠ "YUV10" → s ≠ "YUV422_10" → s ≠ "RGB10" →
        getFormatCode s = 0xFF) ∧
    (∀ c : Nat, c ≠ 0x01 → c ≠ 0x02 → c ≠ 0x03 → c ≠ 0x04 →
        getFormatString c = "Unknown") := by
  refine ⟨?_, by decide, ?_, ?_⟩
  · rintro s (rfl | rfl | rfl | rfl) <;> decide
  · intro s h1 h2 h3 h4 h5 h6 h7 h8
    simp [getFormatCode, h1, h2, h3, h4, h5, h6, h7, h8]
  · intro c h1 h2 h3 h4
    simp [getFormatString, h1, h2, h3, h4]

/-- C9 witness: the round trip at "YUV", an unrecognized string, and an
out-of-range code. -/
theorem format_code_string_round_trip_witness :
    getFormatString (getFormatCode "YUV") = "YUV" ∧
    getFormatCode "GRAY8" = 0xFF ∧ getFormatString 0x07 = "Unknown" :=
  ⟨format_code_string_round_trip.1 "YUV" (Or.inl rfl),
   format_code_string_round_trip.2.2.1 "GRAY8" (by decide) (by decide)
     (by decide) (by decide) (by decide) (by decide) (by decide) (by decide),
   format_code_string_round_trip.2.2.2 0x07 (by decide) (by decide)
     (by decide) (by decide)⟩

/-- C10: on an initialized segment, a write whose frame argument is
null, has a null data pointer, or has dataSize == 0 returns INVALID_SIZE
with the entire state (indices, counters, metadata region, slots)
untouched; likewise through writeFrame. -/
theorem writeFrameTimeout_invalid_input (dump : SMState → FrameIn → List Nat)
    (cfg : Config) (st : SMState) (frame : Option FrameIn) (timeoutMs now : Nat)
    (hinit : st.isInit = true)
    (hbad : frame = none ∨
      ∃ f, frame = some f ∧ (f.dataNull = true ∨ f.dataSize = 0)) :
    writeFrameTimeout dump cfg st frame timeoutMs now = ⟨Status.INVALID_SIZE, st⟩ ∧
    writeFrame dump cfg st frame now = ⟨Status.INVALID_SIZE, st⟩ := by
  have key : ∀ t, writeFrameTimeout dump cfg st frame t now = ⟨Status.INVALID_SIZE, st⟩ := by
    intro t
    rcases hbad with rfl | ⟨f, rfl, hf⟩
    · simp [writeFrameTimeout, hinit]
    · simp [writeFrameTimeout, hinit, hf]
  exact ⟨key timeoutMs, key 0⟩

/-- C10 witness: a null frame argument on the freshly created two-slot
segment. -/
theorem writeFrameTimeout_invalid_input_witness :
    writeFrameTimeout noDump ringCfg st0 none 5 0 = ⟨Status.INVALID_SIZE, st0⟩ ∧
    writeFrame noDump ringCfg st0 none 0 = ⟨Status.INVALID_SIZE, st0⟩ :=
  writeFrameTimeout_invalid_input noDump ringCfg st0 none 5 0 (by decide)
    (Or.inl rfl)

/-- C8: on an initialized segment with a described metadata region, an
update whose serialized document does not fit in metadataSize - 1 bytes
reports failure and leaves the region byte-for-byte intact, while a
fitting document leaves the region holding the document NUL-terminated
(padded with NULs) within the region. -/
theorem updateMetadataJson_bounds (st : SMState) (doc : List Nat)
    (hinit : st.isInit = true) (hoff : st.cbMetadataOffset ≠ 0)
    (hsz : st.cbMetadataSize ≠ 0) (h0 : ∀ b ∈ doc, b ≠ 0) :
    (st.cbMetadataSize ≤ doc.length →
      updateMetadataJson st doc = (false, st)) ∧
    (doc.length < st.cbMetadataSize →
      (updateMetadataJson st doc).1 = true ∧
      (updateMetadataJson st doc).2.meta =
        doc ++ List.replicate (st.cbMetadataSize - doc.length) 0 ∧
      (updateMetadataJson st doc).2.meta.length = st.cbMetadataSize ∧
      0 < st.cbMetadataSize - doc.length) := by
  constructor
  · intro hlong
    simp [updateMetadataJson, hinit, hoff, hsz, hlong]
  · intro hfit
    have hnot : ¬ st.cbMetadataSize ≤ doc.length := by omega
    have hw := metaWrite_of_fits st.cbMetadataSize doc h0 hfit
    have hres : updateMetadataJson st doc =
        (true, { st with meta := metaWrite st.cbMetadataSize doc }) := by
      simp [updateMetadataJson, hinit, hoff, hsz, hnot]
    refine ⟨by rw [hres], by rw [hres]; simpa using hw, ?_, by omega⟩
    rw [hres]
    simp [hw]
    omega

/-- C8 witness: on a 4-byte metadata region, the 2-byte document
[65, 66] is accepted and stored as [65, 66, 0, 0], and a 4-byte document
is rejected leaving the region intact. -/
theorem updateMetadataJson_bounds_witness :
    updateMetadataJson metaState [65, 66, 67, 68] = (false, metaState) ∧
    (updateMetadataJson metaState [65, 66]).1 = true ∧
    (updateMetadataJson metaState [65, 66]).2.meta = [65, 66, 0, 0] := by
  have hfit := (updateMetadataJson_bounds metaState [65, 66] (by decide)
    (by decide) (by decide) (by decide)).2 (by decide)
  have hrej := (updateMetadataJson_bounds metaState [65, 66, 67, 68] (by decide)
    (by decide) (by decide) (by decide)).1 (by decide)
  refine ⟨hrej, hfit.1, ?_⟩
  rw [hfit.2.1]
  decide


/-- C5: a readNextFrame call returning OK advances readIndex by exactly
1, advances totalFramesRead by exactly 1 and decrements frameCount
saturating at zero; a call returning BUFFER_EMPTY or TIMEOUT changes
none of these counters. -/
theorem readNextFrame_counter_deltas (cfg : Config) (st : SMState)
    (waitMilliseconds now : Nat)
    (hr : st.readIndex + 1 < U64) (ht : st.totalFramesRead + 1 < U64) :
    ((readNextFrame cfg st waitMilliseconds now).status = Status.OK →
      (readNextFrame cfg st waitMilliseconds now).state.readIndex = st.readIndex + 1 ∧
      (readNextFrame cfg st waitMilliseconds now).state.totalFramesRead =
        st.totalFramesRead + 1 ∧
      (readNextFrame cfg st waitMilliseconds now).state.frameCount =
        st.frameCount - 1 ∧
      (st.frameCount = 0 →
        (readNextFrame cfg st waitMilliseconds now).state.frameCount = 0)) ∧
    ((readNextFrame cfg st waitMilliseconds now).status = Status.BUFFER_EMPTY ∨
      (readNextFrame cfg st waitMilliseconds now).status = Status.TIMEOUT →
      (readNextFrame cfg st waitMilliseconds now).state.readIndex = st.readIndex ∧
      (readNextFrame cfg st waitMilliseconds now).state.totalFramesRead =
        st.totalFramesRead ∧
      (readNextFrame cfg st waitMilliseconds now).state.frameCount =
        st.frameCount) := by
  have hcases :
      ((readNextFrame cfg st waitMilliseconds now).status ≠ Status.OK ∧
        (readNextFrame cfg st waitMilliseconds now).state = st) ∨
      ((readNextFrame cfg st waitMilliseconds now).status = Status.OK ∧
        (readNextFrame cfg st waitMilliseconds now).state.readIndex =
          (st.readIndex + 1) % U64 ∧
        (readNextFrame cfg st waitMilliseconds now).state.totalFramesRead =
          (st.totalFramesRead + 1) % U64 ∧
        (readNextFrame cfg st waitMilliseconds now).state.frameCount =
          (if 0 < st.frameCount then st.frameCount - 1 else st.frameCount)) := by
    unfold readNextFrame
    dsimp only
    repeat' split
    all_goals first
      | exact Or.inl ⟨(fun h => nomatch h), rfl⟩
      | exact Or.inr ⟨rfl, rfl, rfl, rfl⟩
  rcases hcases with ⟨hne, hst⟩ | ⟨hok, hri, htr, hfc⟩
  · constructor
    · intro h; exact absurd h hne
    · intro _; rw [hst]; exact ⟨rfl, rfl, rfl⟩
  · constructor
    · intro _
      rw [hri, htr, hfc, Nat.mod_eq_of_lt hr, Nat.mod_eq_of_lt ht]
      refine ⟨rfl, rfl, by split <;> omega, by intro h0; simp [h0]⟩
    · intro h
      rcases h with h | h <;> rw [hok] at h <;> exact absurd h (by decide)

/-- C5 witness: the sequential read of the one published frame (OK) and
the following non-blocking read on the drained buffer (BUFFER_EMPTY). -/
theorem readNextFrame_counter_deltas_witness :
    readNextA.status = Status.OK ∧
    readNextA.state.readIndex = writeA.state.readIndex + 1 ∧
    readNextA.state.totalFramesRead = writeA.state.totalFramesRead + 1 ∧
    readNextA.state.frameCount = writeA.state.frameCount - 1 ∧
    readNextEmpty.status = Status.BUFFER_EMPTY ∧
    readNextEmpty.state.readIndex = readNextA.state.readIndex ∧
    readNextEmpty.state.totalFramesRead = readNextA.state.totalFramesRead ∧
    readNextEmpty.state.frameCount = readNextA.state.frameCount := by
  have hok := (readNextFrame_counter_deltas ringCfg writeA.state 0 0
    (by decide) (by decide)).1 (by decide)
  have hempty := (readNextFrame_counter_deltas ringCfg readNextA.state 0 0
    (by decide) (by decide)).2 (Or.inl (by decide))
  exact ⟨by decide, hok.1, hok.2.1, hok.2.2.1, by decide,
    hempty.1, hempty.2.1, hempty.2.2⟩

/-- C6: a write operation returning OK advances writeIndex by exactly 1
and totalFramesWritten by exactly 1; a write returning any other status
leaves both counters unchanged. -/
theorem writeFrameTimeout_counter_deltas (dump : SMState → FrameIn → List Nat)
    (cfg : Config) (st : SMState) (frame : Option FrameIn) (timeoutMs now : Nat)
    (hw : st.writeIndex + 1 < U64) (ht : st.totalFramesWritten + 1 < U64) :
    ((writeFrameTimeout dump cfg st frame timeoutMs now).status = Status.OK →
      (writeFrameTimeout dump cfg st frame timeoutMs now).state.writeIndex =
        st.writeIndex + 1 ∧
      (writeFrameTimeout dump cfg st frame timeoutMs now).state.totalFramesWritten =
        st.totalFramesWritten + 1) ∧
    ((writeFrameTimeout dump cfg st frame timeoutMs now).status ≠ Status.OK →
      (writeFrameTimeout dump cfg st frame timeoutMs now).state.writeIndex =
        st.writeIndex ∧
      (writeFrameTimeout dump cfg st frame timeoutMs now).state.totalFramesWritten =
        st.totalFramesWritten) := by
  have hcases :
      ((writeFrameTimeout dump cfg st frame timeoutMs now).status ≠ Status.OK ∧
        (writeFrameTimeout dump cfg st frame timeoutMs now).state.writeIndex =
          st.writeIndex ∧
        (writeFrameTimeout dump cfg st frame timeoutMs now).state.totalFramesWritten =
          st.totalFramesWritten) ∨
      ((writeFrameTimeout dump cfg st frame timeoutMs now).status = Status.OK ∧
        (writeFrameTimeout dump cfg st frame timeoutMs now).state.writeIndex =
          (st.writeIndex + 1) % U64 ∧
        (writeFrameTimeout dump cfg st frame timeoutMs now).state.totalFramesWritten =
          (st.totalFramesWritten + 1) % U64) := by
    unfold writeFrameTimeout
    dsimp only
    repeat' split
    all_goals first
      | exact Or.inl ⟨(fun h => nomatch h), rfl, rfl⟩
      | exact Or.inr ⟨rfl, rfl, rfl⟩
  rcases hcases with ⟨hne, hwi, htw⟩ | ⟨hok, hwi, htw⟩
  · exact ⟨fun h => absurd h hne, fun _ => ⟨hwi, htw⟩⟩
  · refine ⟨fun _ => ?_, fun h => absurd hok h⟩
    rw [hwi, htw, Nat.mod_eq_of_lt hw, Nat.mod_eq_of_lt ht]
    exact ⟨rfl, rfl⟩

/-- C6 witness: the first write into the fresh segment (OK) and the
third write against the full buffer (BUFFER_FULL). -/
theorem writeFrameTimeout_counter_deltas_witness :
    writeA.status = Status.OK ∧
    writeA.state.writeIndex = st0.writeIndex + 1 ∧
    writeA.state.totalFramesWritten = st0.totalFramesWritten + 1 ∧
    writeC.status ≠ Status.OK ∧
    writeC.state.writeIndex = writeB.state.writeIndex ∧
    writeC.state.totalFramesWritten = writeB.state.totalFramesWritten := by
  have hok := (writeFrameTimeout_counter_deltas noDump ringCfg st0
    (some testFrame) 0 0 (by decide) (by decide)).1 (by decide)
  have hfull := (writeFrameTimeout_counter_deltas noDump ringCfg writeB.state
    (some testFrame) 0 0 (by decide) (by decide)).2 (by decide)
  exact ⟨by decide, hok.1, hok.2, by decide, hfull.1, hfull.2⟩

/-- readLatestFrame leaves every state component it reads unchanged:
only lastReadTime and the local read statistic can change. -/
theorem readLatestFrame_preserves (cfg : Config) (st : SMState) (now : Nat) :
    (readLatestFrame cfg st now).state.isInit = st.isInit ∧
    (readLatestFrame cfg st now).state.writeIndex = st.writeIndex ∧
    (readLatestFrame cfg st now).state.readIndex = st.readIndex ∧
    (readLatestFrame cfg st now).state.size = st.size ∧
    (readLatestFrame cfg st now).state.dataOffset = st.dataOffset ∧
    (readLatestFrame cfg st now).state.maxFrames = st.maxFrames ∧
    (readLatestFrame cfg st now).state.frameSlotSize = st.frameSlotSize ∧
    (readLatestFrame cfg st now).state.slots = st.slots := by
  unfold readLatestFrame
  dsimp only
  repeat' split
  all_goals exact ⟨rfl, rfl, rfl, rfl, rfl, rfl, rfl, rfl⟩

/-- The status and view of readLatestFrame depend only on the state
components the read path loads, not on the clock. -/
theorem readLatestFrame_congr (cfg : Config) (st1 st2 : SMState)
    (now1 now2 : Nat)
    (h1 : st1.isInit = st2.isInit) (h2 : st1.writeIndex = st2.writeIndex)
    (h3 : st1.readIndex = st2.readIndex) (h4 : st1.size = st2.size)
    (h5 : st1.dataOffset = st2.dataOffset) (h6 : st1.maxFrames = st2.maxFrames)
    (h7 : st1.frameSlotSize = st2.frameSlotSize) (h8 : st1.slots = st2.slots) :
    (readLatestFrame cfg st1 now1).status = (readLatestFrame cfg st2 now2).status ∧
    (readLatestFrame cfg st1 now1).view = (readLatestFrame cfg st2 now2).view := by
  unfold readLatestFrame frameHeaderOk frameDataOk calculateFrameOffset
  dsimp only
  rw [h1, h2, h3, h4, h5, h6, h7, h8]
  repeat' split
  all_goals exact ⟨rfl, rfl⟩

/-- C7: readLatestFrame never modifies readIndex or writeIndex (nor the
slots), so a second call with no intervening write returns the same
status and, on OK, an identical view of the same slot (equal frameId,
dimensions, dataSize, formatCode, sequenceNumber and pixel bytes). -/
theorem readLatestFrame_idempotent (cfg : Config) (st : SMState)
    (now1 now2 : Nat) :
    (readLatestFrame cfg st now1).state.readIndex = st.readIndex ∧
    (readLatestFrame cfg st now1).state.writeIndex = st.writeIndex ∧
    (readLatestFrame cfg st now1).state.slots = st.slots ∧
    (readLatestFrame cfg ((readLatestFrame cfg st now1).state) now2).status =
      (readLatestFrame cfg st now1).status ∧
    (readLatestFrame cfg ((readLatestFrame cfg st now1).state) now2).view =
      (readLatestFrame cfg st now1).view := by
  obtain ⟨p1, p2, p3, p4, p5, p6, p7, p8⟩ := readLatestFrame_preserves cfg st now1
  have hc := readLatestFrame_congr cfg ((readLatestFrame cfg st now1).state) st
    now2 now1 p1 p2 p3 p4 p5 p6 p7 p8
  exact ⟨p3, p2, p8, hc.1, hc.2⟩

/-- C1: on a created segment, the byte offset of slot i is
dataOffset + (i mod maxFrames) * frameSlotSize, and the byte ranges
written for two indices with distinct residues mod maxFrames (header
plus up to dataSize bytes, dataSize ≤ frameSlotSize - sizeof(FrameHeader))
are disjoint: no byte x lies in both. -/
theorem calculateFrameOffset_slots_disjoint (shmSize : Nat)
    (metaInit : List Nat) (st : SMState) (i j d x : Nat)
    (hcreate : posixShmCreate shmSize metaInit = some st)
    (hij : i % st.maxFrames ≠ j % st.maxFrames)
    (hd : frameHeaderSize + d ≤ st.frameSlotSize) :
    calculateFrameOffset st i =
      st.dataOffset + (i % st.maxFrames) * st.frameSlotSize ∧
    ¬(calculateFrameOffset st i ≤ x ∧
      x < calculateFrameOffset st i + (frameHeaderSize + d) ∧
      calculateFrameOffset st j ≤ x ∧
      x < calculateFrameOffset st j + (frameHeaderSize + d)) := by
  refine ⟨rfl, ?_⟩
  rintro ⟨hx1, hx2, hx3, hx4⟩
  unfold calculateFrameOffset at hx1 hx2 hx3 hx4
  have key : ∀ a b : Nat, a < b →
      st.dataOffset + a * st.frameSlotSize + (frameHeaderSize + d) ≤
        st.dataOffset + b * st.frameSlotSize := by
    intro a b hab
    have h1 : (a + 1) * st.frameSlotSize ≤ b * st.frameSlotSize :=
      Nat.mul_le_mul_right _ hab
    have h2 : a * st.frameSlotSize + st.frameSlotSize ≤ b * st.frameSlotSize := by
      calc a * st.frameSlotSize + st.frameSlotSize
          = (a + 1) * st.frameSlotSize := by ring
        _ ≤ b * st.frameSlotSize := h1
    have h3 : a * st.frameSlotSize + (frameHeaderSize + d) ≤
        a * st.frameSlotSize + st.frameSlotSize := by
      exact Nat.add_le_add_left hd _
    calc st.dataOffset + a * st.frameSlotSize + (frameHeaderSize + d)
        = st.dataOffset + (a * st.frameSlotSize + (frameHeaderSize + d)) := by ring
      _ ≤ st.dataOffset + (a * st.frameSlotSize + st.frameSlotSize) :=
          Nat.add_le_add_left h3 _
      _ ≤ st.dataOffset + b * st.frameSlotSize := by
          exact Nat.add_le_add_left h2 _
  rcases Nat.lt_or_ge (i % st.maxFrames) (j % st.maxFrames) with hab | hab
  · have := key (i % st.maxFrames) (j % st.maxFrames) hab
    omega
  · have hba : j % st.maxFrames < i % st.maxFrames :=
      Nat.lt_of_le_of_ne hab (Ne.symm hij)
    have := key (j % st.maxFrames) (i % st.maxFrames) hba
    omega

/-- C1 witness: on the two-slot segment, the ranges of slot 0 and slot 1
with maximal dataSize = frameSlotSize - sizeof(FrameHeader) do not both
contain byte 4416 (the base of slot 0). -/
theorem calculateFrameOffset_slots_disjoint_witness :
    calculateFrameOffset st0 0 =
      st0.dataOffset + (0 % st0.maxFrames) * st0.frameSlotSize ∧
    ¬(calculateFrameOffset st0 0 ≤ 4416 ∧
      4416 < calculateFrameOffset st0 0 + (frameHeaderSize + 4147200) ∧
      calculateFrameOffset st0 1 ≤ 4416 ∧
      4416 < calculateFrameOffset st0 1 + (frameHeaderSize + 4147200)) :=
  calculateFrameOffset_slots_disjoint twoSlotSize [] st0 0 1 4147200 4416
    rfl (by decide) (by decide)

/-- C2 counterexample: a fresh two-slot segment, dropFramesWhenFull
false, timeoutMs 0, no reader.  Two writes succeed; the third (the
buffer now being full) returns BUFFER_FULL, not OK, and readIndex is
still 0, not 1: the writer neither overwrites the oldest slot nor
advances readIndex. -/
theorem ring_overwrite_counterexample :
    st0.maxFrames = 2 ∧ ringCfg.dropFramesWhenFull = false ∧
    writeA.status = Status.OK ∧ writeB.status = Status.OK ∧
    writeC.status = Status.BUFFER_FULL ∧ writeC.status ≠ Status.OK ∧
    writeC.state.readIndex = 0 ∧ writeC.state.readIndex ≠ 1 ∧
    writeC.state.droppedFrames = 1 := by decide

/-- C2 (amended): when the buffer is full (writeIndex - readIndex ≥
maxFrames), drop-when-full is not set and timeoutMs = 0, the write
re-checks once after a 1 ms sleep and — no reader having advanced
readIndex — returns BUFFER_FULL, increments droppedFrames, and leaves
writeIndex, readIndex and every slot unchanged. -/
theorem writeFrameTimeout_full_noDrop (dump : SMState → FrameIn → List Nat)
    (cfg : Config) (st : SMState) (f : FrameIn) (now : Nat)
    (hinit : st.isInit = true) (hnull : f.dataNull = false)
    (hsz : f.dataSize ≠ 0)
    (hfull : st.maxFrames ≤ sub64 st.writeIndex st.readIndex)
    (hdrop : cfg.dropFramesWhenFull = false) :
    (writeFrameTimeout dump cfg st (some f) 0 now).status = Status.BUFFER_FULL ∧
    (writeFrameTimeout dump cfg st (some f) 0 now).state.readIndex = st.readIndex ∧
    (writeFrameTimeout dump cfg st (some f) 0 now).state.writeIndex = st.writeIndex ∧
    (writeFrameTimeout dump cfg st (some f) 0 now).state.droppedFrames =
      (st.droppedFrames + 1) % U64 ∧
    (writeFrameTimeout dump cfg st (some f) 0 now).state.slots = st.slots := by
  have hbad : ¬(f.dataNull = true ∨ f.dataSize = 0) := by
    simp [hnull, hsz]
  simp [writeFrameTimeout, hinit, hbad, hfull, hdrop]

/-- C2 amended witness: the third write of the concrete run. -/
theorem writeFrameTimeout_full_noDrop_witness :
    writeC.status = Status.BUFFER_FULL ∧
    writeC.state.readIndex = writeB.state.readIndex ∧
    writeC.state.writeIndex = writeB.state.writeIndex ∧
    writeC.state.droppedFrames = (writeB.state.droppedFrames + 1) % U64 ∧
    writeC.state.slots = writeB.state.slots :=
  writeFrameTimeout_full_noDrop noDump ringCfg writeB.state testFrame 0
    (by decide) (by decide) (by decide) (by decide) (by decide)

/-- C3 (code evaluated at the failing input): a frame whose data does
not fit in one slot (sizeof(FrameHeader) + dataSize = 4147289 >
frameSlotSize = 4147288) is not rejected: the write returns OK — not
INVALID_SIZE — and publishes (writeIndex and totalFramesWritten advance
to 1). -/
theorem oversize_frame_write_accepted :
    st0.frameSlotSize < frameHeaderSize + oversizeFrame.dataSize ∧
    writeOversize.status = Status.OK ∧
    writeOversize.status ≠ Status.INVALID_SIZE ∧
    writeOversize.state.writeIndex = 1 ∧
    writeOversize.state.totalFramesWritten = 1 := by decide

/-- C4 counterexample: publish one frame, consume it sequentially
(readIndex = writeIndex = 1 > 0); readLatestFrame then returns
BUFFER_EMPTY, not OK. -/
theorem readLatestFrame_drained_counterexample :
    readNextA.status = Status.OK ∧
    readNextA.state.writeIndex = 1 ∧
    readNextA.state.readIndex = 1 ∧
    latestAfterDrain.status = Status.BUFFER_EMPTY ∧
    latestAfterDrain.status ≠ Status.OK := by decide

/-- C4 (amended): on an initialized segment, readLatestFrame returns
BUFFER_EMPTY exactly when writeIndex = 0 or writeIndex ≤ readIndex;
when readIndex < writeIndex (and the slot pointers check out) it
returns OK with a view of slot (writeIndex - 1) mod maxFrames. -/
theorem readLatestFrame_empty_iff (cfg : Config) (st : SMState) (now : Nat)
    (hinit : st.isInit = true) :
    ((readLatestFrame cfg st now).status = Status.BUFFER_EMPTY ↔
      (st.writeIndex = 0 ∨ st.writeIndex ≤ st.readIndex)) ∧
    (st.readIndex < st.writeIndex →
      frameHeaderOk st (st.writeIndex - 1) = true →
      frameDataOk st (st.writeIndex - 1) = true →
      (readLatestFrame cfg st now).status = Status.OK ∧
      (readLatestFrame cfg st now).view =
        some (slotView (st.slots ((st.writeIndex - 1) % st.maxFrames)))) := by
  have hni : ¬(st.isInit = false) := by simp [hinit]
  constructor
  · by_cases hemp : st.writeIndex = 0 ∨ st.writeIndex ≤ st.readIndex
    · unfold readLatestFrame
      rw [if_neg hni]
      dsimp only
      rw [if_pos hemp]
      simp [hemp]
    · unfold readLatestFrame
      rw [if_neg hni]
      dsimp only
      rw [if_neg hemp]
      constructor
      · intro h
        exfalso
        by_cases hh : frameHeaderOk st (st.writeIndex - 1) = false
        · rw [if_pos hh] at h; exact nomatch h
        · rw [if_neg hh] at h
          by_cases hdk : frameDataOk st (st.writeIndex - 1) = false
          · rw [if_pos hdk] at h; exact nomatch h
          · rw [if_neg hdk] at h; exact nomatch h
      · intro h; exact absurd h hemp
  · intro hlt hh hdk
    have hemp : ¬(st.writeIndex = 0 ∨ st.writeIndex ≤ st.readIndex) := by omega
    have hh' : ¬(frameHeaderOk st (st.writeIndex - 1) = false) := by
      simp [hh]
    have hdk' : ¬(frameDataOk st (st.writeIndex - 1) = false) := by
      simp [hdk]
    unfold readLatestFrame
    rw [if_neg hni]
    dsimp only
    rw [if_neg hemp, if_neg hh', if_neg hdk']
    exact ⟨rfl, rfl⟩

/-- C4 amended witness: after one write, before any sequential read,
readLatestFrame returns OK with a view of slot 0. -/
theorem readLatestFrame_empty_iff_witness :
    ((readLatestFrame ringCfg writeA.state 0).status = Status.BUFFER_EMPTY ↔
      (writeA.state.writeIndex = 0 ∨
        writeA.state.writeIndex ≤ writeA.state.readIndex)) ∧
    (readLatestFrame ringCfg writeA.state 0).status = Status.OK ∧
    (readLatestFrame ringCfg writeA.state 0).view =
      some (slotView (writeA.state.slots
        ((writeA.state.writeIndex - 1) % writeA.state.maxFrames))) := by
  have h := readLatestFrame_empty_iff ringCfg writeA.state 0 (by decide)
  have hok := h.2 (by decide) (by decide) (by decide)
  exact ⟨h.1, hok.1, hok.2⟩

end MiviImaging
